import Mathlib

set_option maxRecDepth 40000

/-!
Shallow embedding of the AMS connection multiplexer (src/AdsLib/AmsConnection.cpp).
Pure functions model the C++ member functions; the reader loop is embedded as a
step function over an explicit connection state, one incoming TCP message per step.
Collaborator classes whose sources are not part of this repository (Frame,
RingBuffer, the Router port constants) are modelled from the specification and
marked as such in their doc comments.
-/

/-- Little-endian encoding of a 16-bit value as two bytes. -/
def u16le (n : Nat) : List Nat := [n % 256, n / 256 % 256]

/-- Little-endian encoding of a 32-bit value as four bytes. -/
def u32le (n : Nat) : List Nat := [n % 256, n / 256 % 256, n / 65536 % 256, n / 16777216 % 256]

/-- Modulus of the 32-bit unsigned arithmetic of the invokeId counter. -/
def UINT32_MOD : Nat := 4294967296

/-- Modelled from the spec: the Frame class is not among the repository sources;
spec 4.1 describes an owned byte buffer with a capacity and a current window,
with prepend, limit, clear and reset.  `bytes` is the current window content. -/
structure Frame where
  capacity : Nat
  bytes : List Nat
deriving DecidableEq

/-- Number of bytes in the frame's current window (Frame::size). -/
def Frame.size (f : Frame) : Nat := f.bytes.length

/-- Prepend raw header bytes in front of the window (Frame::prepend). -/
def Frame.prepend (f : Frame) (bs : List Nat) : Frame := { f with bytes := bs ++ f.bytes }

/-- Empty the window, keeping capacity (Frame::clear). -/
def Frame.clear (f : Frame) : Frame := { f with bytes := [] }

/-- Return the frame to its freshly constructed empty state (Frame::reset). -/
def Frame.reset (f : Frame) : Frame := { f with bytes := [] }

/-- AmsAddr: 6-byte netId plus 16-bit port (spec 3). -/
structure AmsAddr where
  netId : List Nat
  port : Nat
deriving DecidableEq

/-- AoEHeader, the 32-byte AMS/TCP routing header (spec 6). -/
structure AoEHeader where
  targetNetId : List Nat
  targetPort : Nat
  sourceNetId : List Nat
  sourcePort : Nat
  cmdId : Nat
  stateFlags : Nat
  length : Nat
  errorCode : Nat
  invokeId : Nat
deriving DecidableEq

/-- sizeof(AoEHeader) on the wire. -/
def AoEHeader.byteSize : Nat := 32

def AoEHeader.READ_DEVICE_INFO : Nat := 1

def AoEHeader.READ : Nat := 2

def AoEHeader.WRITE : Nat := 3

def AoEHeader.READ_STATE : Nat := 4

def AoEHeader.WRITE_CONTROL : Nat := 5

def AoEHeader.ADD_DEVICE_NOTIFICATION : Nat := 6

def AoEHeader.DEL_DEVICE_NOTIFICATION : Nat := 7

def AoEHeader.DEVICE_NOTIFICATION : Nat := 8

def AoEHeader.READ_WRITE : Nat := 9

/-- AmsAddr of the frame's sender (AoEHeader::sourceAms). -/
def AoEHeader.sourceAms (h : AoEHeader) : AmsAddr := ⟨h.sourceNetId, h.sourcePort⟩

/-- Wire serialization of an AoEHeader, little-endian fields in order. -/
def AoEHeader.toBytes (h : AoEHeader) : List Nat :=
  h.targetNetId ++ u16le h.targetPort ++ h.sourceNetId ++ u16le h.sourcePort ++
    u16le h.cmdId ++ u16le h.stateFlags ++ u32le h.length ++ u32le h.errorCode ++
    u32le h.invokeId

/-- Wire serialization of the 6-byte AmsTcpHeader: reserved u16 = 0 then a u32 length. -/
def AmsTcpHeader.toBytes (len : Nat) : List Nat := u16le 0 ++ u32le len

/-- AmsResponse: the per-local-port response slot.  The condition variable and
mutex are represented by the step log of the reader; `invokeId == 0` marks the
slot free. -/
structure AmsResponse where
  frame : Frame
  invokeId : Nat
deriving DecidableEq

/-- AmsResponse::AmsResponse(): frame of capacity 4096, invokeId 0. -/
instance : Inhabited AmsResponse := ⟨⟨⟨4096, []⟩, 0⟩⟩

/-- AmsResponse::Notify: store 0 into invokeId (the condvar wake is recorded in
the reader's step log). -/
def AmsResponse.Notify (r : AmsResponse) : AmsResponse := { r with invokeId := 0 }

/-- AmsResponse::Wait's condition: the predicate the caller's condvar wait
evaluates, true exactly when invokeId has been cleared. -/
def AmsResponse.Wait (r : AmsResponse) : Bool := r.invokeId == 0

/-- Slot-level compare-and-exchange of invokeId from 0 to `id`
(the atomic CAS inside AmsConnection::Reserve): `none` when the slot is
already reserved. -/
def AmsResponse.reserve (r : AmsResponse) (id : Nat) : Option AmsResponse :=
  if r.invokeId = 0 then some { r with invokeId := id } else none

/-- Modelled from the spec: Router::PORT_BASE, the first local AMS port
(the Router sources are not part of this repository; spec 8 scenario 1 uses
local port 30000 as a valid port). -/
def Router.PORT_BASE : Nat := 30000

/-- Modelled from the spec: the size of the fixed slot array
(spec 4.6: a fixed contiguous array indexed by localPort − PORT_BASE). -/
def Router.NUM_PORTS : Nat := 128

/-- Bounds-checked index into the slot array: the C++ code computes
`port - Router::PORT_BASE` with no range check, so `none` marks an access that
in C++ reads outside the fixed array (undefined behavior). -/
def queueIdx? (port : Nat) : Option Nat :=
  if Router.PORT_BASE ≤ port ∧ port < Router.PORT_BASE + Router.NUM_PORTS then
    some (port - Router.PORT_BASE)
  else
    none

/-- atomic fetch_add(1) on the uint32 invokeId counter: returns the old value
and the incremented state. -/
def AmsConnection.fetchAdd (c : Nat) : Nat × Nat := (c % UINT32_MOD, (c + 1) % UINT32_MOD)

/-- AmsConnection::GetInvokeId: `do { result = invokeId.fetch_add(1); } while (!result);`.
After a fetch that returns 0 the counter holds 1, so the loop body runs at most
twice; the unrolling below is exact. -/
def AmsConnection.GetInvokeId (c : Nat) : Nat × Nat :=
  let a := AmsConnection.fetchAdd c
  if a.1 = 0 then AmsConnection.fetchAdd a.2 else a

/-- AmsConnection::Reserve: CAS the slot of `port` from free to `id`; returns
the updated queue and the slot index, `none` on a reserved slot.  A port whose
index falls outside the array is also `none` here (C++ would index out of
bounds). -/
def AmsConnection.Reserve (queue : List AmsResponse) (id : Nat) (port : Nat) :
    Option (List AmsResponse × Nat) :=
  match queueIdx? port with
  | none => none
  | some i =>
    match (queue.getD i default).reserve id with
    | none => none
    | some s => some (queue.set i s, i)

/-- AmsConnection::Release: reset the slot's frame and store 0 into invokeId. -/
def AmsConnection.Release (r : AmsResponse) : AmsResponse :=
  { r with frame := r.frame.reset, invokeId := 0 }

/-- AmsConnection::ReceiveFrame: when the advertised byte count exceeds the
frame capacity, drain the bytes and clear the frame; otherwise copy exactly
`bytesLeft` bytes from the socket stream and limit the frame to them.  Returns
the frame and the number of drained (discarded) bytes. -/
def AmsConnection.ReceiveFrame (f : Frame) (bytesLeft : Nat) (stream : List Nat) :
    Frame × Nat :=
  if bytesLeft > f.capacity then
    (f.clear, bytesLeft)
  else
    ({ f with bytes := stream.take bytesLeft }, 0)

/-- The eight cmdId values accepted by the switch in AmsConnection::Recv. -/
def acceptedReplyCmd (c : Nat) : Bool :=
  c == AoEHeader.READ_DEVICE_INFO || c == AoEHeader.READ || c == AoEHeader.WRITE ||
    c == AoEHeader.READ_STATE || c == AoEHeader.WRITE_CONTROL ||
    c == AoEHeader.ADD_DEVICE_NOTIFICATION || c == AoEHeader.DEL_DEVICE_NOTIFICATION ||
    c == AoEHeader.READ_WRITE

/-- Modelled from the spec: the RingBuffer class is not among the repository
sources; spec 4.2 describes an SPSC byte ring with bytesFree, writeChunk
(max contiguous writable span without wrapping) and a write-cursor advance.
`used` counts occupied bytes, `rpos` is the read cursor, `data` the backing
store of length `cap`. -/
structure RingBuffer where
  cap : Nat
  rpos : Nat
  used : Nat
  data : List Nat
deriving DecidableEq

/-- Position of the write cursor. -/
def RingBuffer.wpos (r : RingBuffer) : Nat := (r.rpos + r.used) % r.cap

/-- RingBuffer::BytesFree. -/
def RingBuffer.BytesFree (r : RingBuffer) : Nat := r.cap - r.used

/-- RingBuffer::WriteChunk: largest contiguous span writable without wrapping. -/
def RingBuffer.WriteChunk (r : RingBuffer) : Nat :=
  min r.BytesFree (r.cap - r.wpos)

/-- Overwrite `bs` into `data` starting at `pos` (no wrap inside one chunk). -/
def writeAt (data : List Nat) (pos : Nat) (bs : List Nat) : List Nat :=
  data.take pos ++ bs ++ data.drop (pos + bs.length)

/-- Receive(ring.write, n) followed by ring.Write(n): copy the next `n` stream
bytes to the write cursor and advance it. -/
def RingBuffer.WriteBytes (r : RingBuffer) (stream : List Nat) (n : Nat) : RingBuffer :=
  { r with data := writeAt r.data r.wpos (stream.take n), used := r.used + n }

/-- The chunked while-loop of AmsConnection::ReceiveNotification that streams
`bytesLeft` bytes into the ring.  The C++ loop would spin forever on a zero
chunk, which its caller's free-space guard rules out; that branch returns the
ring unchanged so the function stays total. -/
def ringFill (r : RingBuffer) (bytesLeft : Nat) (stream : List Nat) : RingBuffer :=
  if h : r.WriteChunk < bytesLeft then
    if hc : 0 < r.WriteChunk then
      ringFill (r.WriteBytes stream r.WriteChunk) (bytesLeft - r.WriteChunk)
        (stream.drop r.WriteChunk)
    else
      r
  else
    r.WriteBytes stream bytesLeft
termination_by bytesLeft
decreasing_by omega

/-- Result of AmsConnection::ReceiveNotification: the (possibly updated)
dispatcher ring, the count of drained bytes, whether the dispatcher was
notified, the two warning logs, and the return value. -/
structure RNOut where
  ring : Option RingBuffer
  drained : Nat
  dispNotified : Bool
  warnNoDispatcher : Bool
  warnBufferFull : Bool
  ret : Bool
deriving DecidableEq

/-- AmsConnection::ReceiveNotification, given the dispatcher lookup result for
(targetPort, sourceAms) and the socket byte stream after the AoE header. -/
def AmsConnection.ReceiveNotification (disp : Option RingBuffer) (header : AoEHeader)
    (stream : List Nat) : RNOut :=
  match disp with
  | none => ⟨none, header.length, false, true, false, false⟩
  | some ring =>
    if header.length > ring.BytesFree then
      ⟨some ring, header.length, false, false, true, false⟩
    else
      ⟨some (ringFill ring header.length stream), 0, true, false, false, true⟩

/-- Association-list lookup keyed by VirtualConnection = (localPort, remoteAddr). -/
def assocGet : List ((Nat × AmsAddr) × α) → (Nat × AmsAddr) → Option α
  | [], _ => none
  | (k, v) :: t, vc => if k = vc then some v else assocGet t vc

/-- Update the value stored under a key, leaving other entries alone. -/
def assocSet (l : List ((Nat × AmsAddr) × α)) (vc : Nat × AmsAddr) (v : α) :
    List ((Nat × AmsAddr) × α) :=
  l.map (fun p => if p.1 = vc then (vc, v) else p)

/-- AmsConnection::DispatcherList::Get: locked map lookup.  Dispatcher
instances are represented by numeric identities standing for the shared_ptr. -/
def DispatcherList.Get (l : List ((Nat × AmsAddr) × Nat)) (vc : Nat × AmsAddr) : Option Nat :=
  assocGet l vc

/-- std::map::emplace inside DispatcherList::Add: insert `fresh` only when the
key is absent, and return the mapped value either way. -/
def DispatcherList.emplace (l : List ((Nat × AmsAddr) × Nat)) (vc : Nat × AmsAddr)
    (fresh : Nat) : List ((Nat × AmsAddr) × Nat) × Nat :=
  match assocGet l vc with
  | some d => (l, d)
  | none => (l ++ [(vc, fresh)], fresh)

/-- AmsConnection::DispatcherList::Add: unlocked fast-path Get, then a locked
emplace that re-checks the key.  `fresh` is the identity the new dispatcher
would get if one is constructed. -/
def DispatcherList.Add (l : List ((Nat × AmsAddr) × Nat)) (vc : Nat × AmsAddr)
    (fresh : Nat) : List ((Nat × AmsAddr) × Nat) × Nat :=
  match DispatcherList.Get l vc with
  | some d => (l, d)
  | none => DispatcherList.emplace l vc fresh

/-- AmsConnection::CreateNotifyMapping: look up or create the dispatcher for
(port, addr) and return the NotificationId (hNotify, dispatcher identity).
The subscription table inside the dispatcher is not modelled. -/
def AmsConnection.CreateNotifyMapping (l : List ((Nat × AmsAddr) × Nat)) (port : Nat)
    (addr : AmsAddr) (hNotify : Nat) (fresh : Nat) :
    List ((Nat × AmsAddr) × Nat) × (Nat × Nat) :=
  let a := DispatcherList.Add l (port, addr) fresh
  (a.1, (hNotify, a.2))

/-- Warnings the reader loop can log in one iteration. -/
inductive LogMsg where
  | frameTooShort
  | invokeIdMismatch
  | noResponsePending
  | frameTooLong
  | unknownCmdId
  | noDispatcher
  | bufferFull
deriving DecidableEq

/-- Observable effects of one reader-loop iteration: bytes discarded, the slot
woken (if any), whether a dispatcher was woken, warnings, and whether the C++
code performed an out-of-bounds slot-array access. -/
structure StepLog where
  drained : Nat
  slotNotified : Option Nat
  dispNotified : Bool
  warns : List LogMsg
  oob : Bool
deriving DecidableEq

/-- State the reader loop acts on: the slot array and the dispatcher table
(each dispatcher represented by its ring). -/
structure ConnState where
  queue : List AmsResponse
  dispatchers : List ((Nat × AmsAddr) × RingBuffer)
deriving DecidableEq

/-- One TCP message as the reader sees it: the AmsTcpHeader length, the
AoEHeader, and the bytes that follow the AoE header on the socket. -/
structure TcpMsg where
  tcpLen : Nat
  aoe : AoEHeader
  stream : List Nat
deriving DecidableEq

/-- One iteration of the reader loop AmsConnection::Recv
(AmsConnection.cpp lines 209-253). -/
def AmsConnection.Recv1 (st : ConnState) (m : TcpMsg) : ConnState × StepLog :=
  if m.tcpLen < AoEHeader.byteSize then
    (st, ⟨m.tcpLen, none, false, [LogMsg.frameTooShort], false⟩)
  else if m.aoe.cmdId = AoEHeader.DEVICE_NOTIFICATION then
    let vc := (m.aoe.targetPort, m.aoe.sourceAms)
    let out := AmsConnection.ReceiveNotification (assocGet st.dispatchers vc) m.aoe m.stream
    let disp2 :=
      match out.ring with
      | some r => assocSet st.dispatchers vc r
      | none => st.dispatchers
    ({ st with dispatchers := disp2 },
      ⟨out.drained, none, out.dispNotified,
        (if out.warnNoDispatcher then [LogMsg.noDispatcher] else []) ++
          (if out.warnBufferFull then [LogMsg.bufferFull] else []), false⟩)
  else
    match queueIdx? m.aoe.targetPort with
    | none =>
      (st, ⟨0, none, false, [], true⟩)
    | some i =>
      let slot := st.queue.getD i default
      if slot.invokeId = m.aoe.invokeId then
        let fr := AmsConnection.ReceiveFrame slot.frame m.aoe.length m.stream
        let frame2 := if acceptedReplyCmd m.aoe.cmdId then fr.1 else fr.1.clear
        let slot2 := AmsResponse.Notify { slot with frame := frame2 }
        ({ st with queue := st.queue.set i slot2 },
          ⟨fr.2, some i, false,
            (if m.aoe.length > slot.frame.capacity then [LogMsg.frameTooLong] else []) ++
              (if acceptedReplyCmd m.aoe.cmdId then [] else [LogMsg.unknownCmdId]), false⟩)
      else
        (st, ⟨m.aoe.length, none, false,
          [LogMsg.invokeIdMismatch, LogMsg.noResponsePending], false⟩)

/-- Result of AmsConnection::Write: the invokeId counter after GetInvokeId, the
slot array, the returned slot index (`none` is the C++ nullptr), and whether
socket.write was called at all. -/
structure WriteOut where
  counter : Nat
  queue : List AmsResponse
  slot : Option Nat
  sockCalled : Bool
deriving DecidableEq

/-- AmsConnection::Write (AmsConnection.cpp lines 82-102).  `sockWrite` models
socket.write: the byte count the socket reports for an attempted size. -/
def AmsConnection.Write (counter : Nat) (queue : List AmsResponse) (request : Frame)
    (destAddr srcAddr : AmsAddr) (cmdId : Nat) (sockWrite : Nat → Nat) : WriteOut :=
  let g := AmsConnection.GetInvokeId counter
  let aoe : AoEHeader :=
    { targetNetId := destAddr.netId, targetPort := destAddr.port,
      sourceNetId := srcAddr.netId, sourcePort := srcAddr.port, cmdId := cmdId,
      stateFlags := 4, length := request.size, errorCode := 0, invokeId := g.1 }
  let req1 := request.prepend aoe.toBytes
  let req2 := req1.prepend (AmsTcpHeader.toBytes req1.size)
  match AmsConnection.Reserve queue g.1 srcAddr.port with
  | none => ⟨g.2, queue, none, false⟩
  | some (q2, i) =>
    let written := sockWrite req2.size
    if req2.size ≠ written then
      ⟨g.2, q2.set i (AmsConnection.Release (q2.getD i default)), none, true⟩
    else
      ⟨g.2, q2, some i, true⟩

/-! ## Helper lemmas -/

theorem getD_set_self {α : Type} [Inhabited α] (l : List α) (i : Nat) (x : α)
    (h : i < l.length) : (l.set i x).getD i default = x := by
  simp [List.getD, List.getElem?_set_self', h]

theorem assocGet_append_none {α : Type} (l : List ((Nat × AmsAddr) × α))
    (vc : Nat × AmsAddr) (x : α) (h : assocGet l vc = none) :
    assocGet (l ++ [(vc, x)]) vc = some x := by
  induction l with
  | nil => simp [assocGet]
  | cons p t ih =>
    rw [assocGet] at h
    by_cases hk : p.1 = vc
    · simp [hk] at h
    · cases p with
      | mk k v =>
        simp only [List.cons_append, assocGet]
        simp only [ne_eq] at hk
        rw [if_neg hk] at h ⊢
        exact ih h

/-! ## Concrete fixtures used by witnesses and counterexamples -/

def netA : List Nat := [10, 0, 0, 1, 1, 1]

def addrA : AmsAddr := ⟨netA, 851⟩

def freeQueue : List AmsResponse := List.replicate Router.NUM_PORTS default

def busyQueue : List AmsResponse := freeQueue.set 0 ⟨⟨4096, []⟩, 9⟩

/-! ## Claims -/

/-- C4: every invokeId returned by GetInvokeId is strictly positive; the
generator is a fetch_add counter modulo 2^32 that skips the value 0, so an
emitted invokeId is always distinguishable from the free-slot marker 0. -/
theorem c4_invokeId_strictly_positive (c : Nat) :
    0 < (AmsConnection.GetInvokeId c).1 ∧
    (AmsConnection.GetInvokeId c).1 < UINT32_MOD ∧
    (AmsConnection.GetInvokeId c).2 = ((AmsConnection.GetInvokeId c).1 + 1) % UINT32_MOD := by
  unfold AmsConnection.GetInvokeId AmsConnection.fetchAdd UINT32_MOD
  by_cases h : c % 4294967296 = 0 <;> simp [h] <;> omega

/-- C9: slot operations preserve `invokeId == 0 iff free`: the reserve CAS
succeeds exactly on a free slot and transitions 0 to the nonzero id, a reserved
slot is never overwritten, and Notify and Release both store 0 (Release also
resets the frame, Notify leaves it for the caller). -/
theorem c9_slot_invariant (r : AmsResponse) (id : Nat) (hid : id ≠ 0) :
    ((r.reserve id).isSome ↔ r.invokeId = 0)
    ∧ (r.invokeId = 0 → r.reserve id = some { r with invokeId := id } ∧ id ≠ 0)
    ∧ (r.invokeId ≠ 0 → r.reserve id = none)
    ∧ r.Notify.invokeId = 0 ∧ r.Notify.frame = r.frame
    ∧ (AmsConnection.Release r).invokeId = 0
    ∧ (AmsConnection.Release r).frame = r.frame.reset := by
  unfold AmsResponse.reserve AmsResponse.Notify AmsConnection.Release
  by_cases h : r.invokeId = 0 <;> simp [h, hid]

/-- Witness for C9 at a free slot and id 5. -/
theorem c9_witness :
    (5 : Nat) ≠ 0 ∧
    ((((⟨⟨4096, []⟩, 0⟩ : AmsResponse).reserve 5).isSome ↔
        (⟨⟨4096, []⟩, 0⟩ : AmsResponse).invokeId = 0)
      ∧ ((⟨⟨4096, []⟩, 0⟩ : AmsResponse).invokeId = 0 →
          (⟨⟨4096, []⟩, 0⟩ : AmsResponse).reserve 5 = some ⟨⟨4096, []⟩, 5⟩ ∧ (5 : Nat) ≠ 0)
      ∧ ((⟨⟨4096, []⟩, 0⟩ : AmsResponse).invokeId ≠ 0 →
          (⟨⟨4096, []⟩, 0⟩ : AmsResponse).reserve 5 = none)
      ∧ (⟨⟨4096, []⟩, 0⟩ : AmsResponse).Notify.invokeId = 0
      ∧ (⟨⟨4096, []⟩, 0⟩ : AmsResponse).Notify.frame = (⟨⟨4096, []⟩, 0⟩ : AmsResponse).frame
      ∧ (AmsConnection.Release ⟨⟨4096, []⟩, 0⟩).invokeId = 0
      ∧ (AmsConnection.Release ⟨⟨4096, []⟩, 0⟩).frame =
          (⟨⟨4096, []⟩, 0⟩ : AmsResponse).frame.reset) :=
  ⟨by decide, c9_slot_invariant ⟨⟨4096, []⟩, 0⟩ 5 (by decide)⟩

/-- C10: dispatcher lookup-or-create is idempotent: an Add on a key already in
the table returns the existing dispatcher and leaves the table unchanged, a
second Add with the same key returns exactly what the first returned, and the
same holds through CreateNotifyMapping. -/
theorem c10_dispatcher_add_idempotent (l : List ((Nat × AmsAddr) × Nat))
    (vc : Nat × AmsAddr) (f1 f2 : Nat) (port : Nat) (addr : AmsAddr) (n1 n2 : Nat) :
    (∀ d, DispatcherList.Get l vc = some d → DispatcherList.Add l vc f1 = (l, d))
    ∧ DispatcherList.Add (DispatcherList.Add l vc f1).1 vc f2 = DispatcherList.Add l vc f1
    ∧ (AmsConnection.CreateNotifyMapping
          (AmsConnection.CreateNotifyMapping l port addr n1 f1).1 port addr n2 f2).2.2 =
        (AmsConnection.CreateNotifyMapping l port addr n1 f1).2.2
    ∧ (AmsConnection.CreateNotifyMapping
          (AmsConnection.CreateNotifyMapping l port addr n1 f1).1 port addr n2 f2).1 =
        (AmsConnection.CreateNotifyMapping l port addr n1 f1).1 := by
  have key : ∀ (vc : Nat × AmsAddr) (f : Nat),
      DispatcherList.Get (DispatcherList.Add l vc f).1 vc =
        some (DispatcherList.Add l vc f).2 := by
    intro vc f
    unfold DispatcherList.Add DispatcherList.emplace DispatcherList.Get
    cases h : assocGet l vc with
    | some d => simp [h]
    | none => simpa [h] using assocGet_append_none l vc f h
  have addTwice : ∀ (vc : Nat × AmsAddr) (f1 f2 : Nat),
      DispatcherList.Add (DispatcherList.Add l vc f1).1 vc f2 =
        DispatcherList.Add l vc f1 := by
    intro vc f1 f2
    conv_lhs => rw [DispatcherList.Add]
    rw [key vc f1]
  refine ⟨?_, addTwice vc f1 f2, ?_, ?_⟩
  · intro d hd
    unfold DispatcherList.Add
    rw [hd]
  · simp [AmsConnection.CreateNotifyMapping, addTwice (port, addr) f1 f2]
  · simp [AmsConnection.CreateNotifyMapping, addTwice (port, addr) f1 f2]

/-- Witness for C10 on an initially empty table. -/
theorem c10_witness :
    (∀ d, DispatcherList.Get [] (30000, addrA) = some d →
        DispatcherList.Add [] (30000, addrA) 1 = ([], d))
    ∧ DispatcherList.Add (DispatcherList.Add [] (30000, addrA) 1).1 (30000, addrA) 2 =
        DispatcherList.Add [] (30000, addrA) 1
    ∧ (AmsConnection.CreateNotifyMapping
          (AmsConnection.CreateNotifyMapping [] 30000 addrA 7 1).1 30000 addrA 9 2).2.2 =
        (AmsConnection.CreateNotifyMapping [] 30000 addrA 7 1).2.2
    ∧ (AmsConnection.CreateNotifyMapping
          (AmsConnection.CreateNotifyMapping [] 30000 addrA 7 1).1 30000 addrA 9 2).1 =
        (AmsConnection.CreateNotifyMapping [] 30000 addrA 7 1).1 :=
  c10_dispatcher_add_idempotent [] (30000, addrA) 1 2 30000 addrA 7 9

/-- C2: Write on a local port whose slot is already reserved returns null
without calling socket.write and without touching the queue, and the slot
reservation is a compare-and-exchange of invokeId from 0 to the new id that
fails exactly when the slot is already reserved. -/
theorem c2_busy_port_returns_null (counter : Nat) (queue : List AmsResponse)
    (request : Frame) (dest src : AmsAddr) (cmdId : Nat) (sockWrite : Nat → Nat)
    (i : Nat) (r : AmsResponse) (id : Nat)
    (hidx : queueIdx? src.port = some i)
    (hbusy : (queue.getD i default).invokeId ≠ 0) :
    AmsConnection.Write counter queue request dest src cmdId sockWrite =
      ⟨(AmsConnection.GetInvokeId counter).2, queue, none, false⟩
    ∧ ((r.reserve id).isSome ↔ r.invokeId = 0)
    ∧ (r.invokeId = 0 → r.reserve id = some { r with invokeId := id })
    ∧ (r.invokeId ≠ 0 → r.reserve id = none) := by
  refine ⟨?_, ?_, ?_, ?_⟩
  · unfold AmsConnection.Write AmsConnection.Reserve
    rw [hidx]
    unfold AmsResponse.reserve
    simp only [eq_false hbusy, if_false]
  · unfold AmsResponse.reserve
    by_cases h : r.invokeId = 0 <;> simp [h]
  · intro h
    unfold AmsResponse.reserve
    rw [if_pos h]
  · intro h
    unfold AmsResponse.reserve
    rw [if_neg h]

/-- Witness for C2: local port 30000 already reserved with invokeId 9. -/
theorem c2_witness :
    queueIdx? 30000 = some 0 ∧ (busyQueue.getD 0 default).invokeId ≠ 0 ∧
    (AmsConnection.Write 0 busyQueue ⟨100, []⟩ addrA ⟨netA, 30000⟩ 2 (fun n => n) =
        ⟨2, busyQueue, none, false⟩
      ∧ (((default : AmsResponse).reserve 3).isSome ↔ (default : AmsResponse).invokeId = 0)
      ∧ ((default : AmsResponse).invokeId = 0 →
          (default : AmsResponse).reserve 3 = some ⟨⟨4096, []⟩, 3⟩)
      ∧ ((default : AmsResponse).invokeId ≠ 0 → (default : AmsResponse).reserve 3 = none)) :=
  ⟨by decide, by decide,
    c2_busy_port_returns_null 0 busyQueue ⟨100, []⟩ addrA ⟨netA, 30000⟩ 2 (fun n => n)
      0 default 3 (by decide) (by decide)⟩

/-- C3: when socket.write reports a byte count different from the frame size,
Write releases the slot it reserved (invokeId back to 0, frame reset) and
returns null, after having called the socket. -/
theorem c3_partial_write_releases (counter : Nat) (queue : List AmsResponse)
    (request : Frame) (dest src : AmsAddr) (cmdId : Nat) (sockWrite : Nat → Nat)
    (i : Nat)
    (hidx : queueIdx? src.port = some i)
    (hi : i < queue.length)
    (hfree : (queue.getD i default).invokeId = 0)
    (hwr : ∀ n, sockWrite n ≠ n) :
    (AmsConnection.Write counter queue request dest src cmdId sockWrite).slot = none
    ∧ (AmsConnection.Write counter queue request dest src cmdId sockWrite).sockCalled = true
    ∧ ((AmsConnection.Write counter queue request dest src cmdId sockWrite).queue.getD
        i default).invokeId = 0
    ∧ ((AmsConnection.Write counter queue request dest src cmdId sockWrite).queue.getD
        i default).frame = (queue.getD i default).frame.reset := by
  unfold AmsConnection.Write AmsConnection.Reserve
  rw [hidx]
  unfold AmsResponse.reserve
  have hp : ∀ n : Nat, (n = sockWrite n) = False :=
    fun n => eq_false (fun h => hwr n h.symm)
  simp only [hfree, eq_self_iff_true, if_true, hp, ne_eq, not_false_eq_true]
  rw [getD_set_self _ _ _ (by simpa using hi)]
  rw [getD_set_self _ _ _ (by simpa using hi)]
  simp [AmsConnection.Release]

/-- Witness for C3: free port 30000, a socket that always reports one byte too
many, an arbitrary 100-capacity request frame. -/
theorem c3_witness :
    queueIdx? 30000 = some 0 ∧ 0 < freeQueue.length ∧
    (freeQueue.getD 0 default).invokeId = 0 ∧ (∀ n : Nat, n + 1 ≠ n) ∧
    ((AmsConnection.Write 0 freeQueue ⟨100, []⟩ addrA ⟨netA, 30000⟩ 2 (fun n => n + 1)).slot =
        none
      ∧ (AmsConnection.Write 0 freeQueue ⟨100, []⟩ addrA ⟨netA, 30000⟩ 2
          (fun n => n + 1)).sockCalled = true
      ∧ ((AmsConnection.Write 0 freeQueue ⟨100, []⟩ addrA ⟨netA, 30000⟩ 2
          (fun n => n + 1)).queue.getD 0 default).invokeId = 0
      ∧ ((AmsConnection.Write 0 freeQueue ⟨100, []⟩ addrA ⟨netA, 30000⟩ 2
          (fun n => n + 1)).queue.getD 0 default).frame =
          (freeQueue.getD 0 default).frame.reset) :=
  ⟨by decide, by decide, by decide, fun n => Nat.succ_ne_self n,
    c3_partial_write_releases 0 freeQueue ⟨100, []⟩ addrA ⟨netA, 30000⟩ 2 (fun n => n + 1)
      0 (by decide) (by decide) (by decide) (fun n => Nat.succ_ne_self n)⟩

/-- The chunked ring write streams exactly `bytesLeft` bytes: occupancy grows by
`bytesLeft` while the read cursor and capacity are untouched, whenever the free
space the caller checked really holds the bytes. -/
theorem ringFill_props (bytesLeft : Nat) :
    ∀ (r : RingBuffer) (stream : List Nat), 0 < r.cap → bytesLeft ≤ r.BytesFree →
      (ringFill r bytesLeft stream).used = r.used + bytesLeft ∧
      (ringFill r bytesLeft stream).rpos = r.rpos ∧
      (ringFill r bytesLeft stream).cap = r.cap := by
  induction bytesLeft using Nat.strong_induction_on with
  | _ bl ih =>
    intro r stream hcap hfree
    rw [ringFill]
    by_cases h : r.WriteChunk < bl
    · have hwpos : r.wpos < r.cap := Nat.mod_lt _ hcap
      have hmin : r.WriteChunk = min (r.cap - r.used) (r.cap - r.wpos) := rfl
      have hbf : r.BytesFree = r.cap - r.used := rfl
      have hchunk : 0 < r.WriteChunk := by omega
      rw [dif_pos h, dif_pos hchunk]
      have h2 : bl - r.WriteChunk ≤ (r.WriteBytes stream r.WriteChunk).BytesFree := by
        have : (r.WriteBytes stream r.WriteChunk).BytesFree =
            r.cap - (r.used + r.WriteChunk) := rfl
        omega
      have := ih (bl - r.WriteChunk) (by omega)
        (r.WriteBytes stream r.WriteChunk) (stream.drop r.WriteChunk) hcap h2
      have hub : (r.WriteBytes stream r.WriteChunk).used = r.used + r.WriteChunk := rfl
      have hrb : (r.WriteBytes stream r.WriteChunk).rpos = r.rpos := rfl
      have hcb : (r.WriteBytes stream r.WriteChunk).cap = r.cap := rfl
      refine ⟨?_, ?_, ?_⟩
      · rw [this.1, hub]; omega
      · rw [this.2.1, hrb]
      · rw [this.2.2, hcb]
    · rw [dif_neg h]
      exact ⟨rfl, rfl, rfl⟩

/-- C7: a DEVICE_NOTIFICATION whose length exceeds the free space of the
target ring is drained and logged, returns false, and the ring (contents and
cursors) is unchanged with no dispatcher wake; otherwise exactly header.length
bytes enter the ring and the dispatcher is notified.  Without a dispatcher the
frame is likewise drained and logged. -/
theorem c7_notification_ring (ring : RingBuffer) (header : AoEHeader)
    (stream : List Nat) (hcap : 0 < ring.cap) :
    (header.length > ring.BytesFree →
      AmsConnection.ReceiveNotification (some ring) header stream =
        ⟨some ring, header.length, false, false, true, false⟩)
    ∧ (header.length ≤ ring.BytesFree →
      ∃ r2, AmsConnection.ReceiveNotification (some ring) header stream =
          ⟨some r2, 0, true, false, false, true⟩
        ∧ r2.used = ring.used + header.length
        ∧ r2.rpos = ring.rpos ∧ r2.cap = ring.cap)
    ∧ AmsConnection.ReceiveNotification none header stream =
        ⟨none, header.length, false, true, false, false⟩ := by
  refine ⟨?_, ?_, rfl⟩
  · intro hover
    show (if header.length > ring.BytesFree then _ else _) = _
    rw [if_pos hover]
  · intro hfit
    have hp := ringFill_props header.length ring stream hcap hfit
    refine ⟨ringFill ring header.length stream, ?_, hp.1, hp.2.1, hp.2.2⟩
    show (if header.length > ring.BytesFree then _ else _) = _
    rw [if_neg (not_lt.mpr hfit)]

def ringW : RingBuffer := ⟨8, 0, 0, List.replicate 8 0⟩

def aoeNotifW : AoEHeader := ⟨netA, 30000, netA, 851, 8, 4, 64, 0, 0⟩

/-- Witness for C7: an 8-byte ring offered a 64-byte notification (spec 8
scenario 4), and the same ring offered a 3-byte notification. -/
theorem c7_witness :
    0 < ringW.cap ∧
    ((aoeNotifW.length > ringW.BytesFree →
      AmsConnection.ReceiveNotification (some ringW) aoeNotifW [1, 2, 3] =
        ⟨some ringW, aoeNotifW.length, false, false, true, false⟩)
    ∧ (aoeNotifW.length ≤ ringW.BytesFree →
      ∃ r2, AmsConnection.ReceiveNotification (some ringW) aoeNotifW [1, 2, 3] =
          ⟨some r2, 0, true, false, false, true⟩
        ∧ r2.used = ringW.used + aoeNotifW.length
        ∧ r2.rpos = ringW.rpos ∧ r2.cap = ringW.cap)
    ∧ AmsConnection.ReceiveNotification none aoeNotifW [1, 2, 3] =
        ⟨none, aoeNotifW.length, false, true, false, false⟩) :=
  ⟨by decide, c7_notification_ring ringW aoeNotifW [1, 2, 3] (by decide)⟩

def st1 : ConnState := ⟨freeQueue.set 0 ⟨⟨4096, []⟩, 7⟩, []⟩

def msgBig : TcpMsg := ⟨4129, ⟨netA, 30000, netA, 851, 2, 4, 4097, 0, 7⟩,
  List.replicate 4097 171⟩

/-- C1 counterexample: a READ reply whose matching invokeId and accepted cmdId
carry length 4097, one byte beyond the slot frame's 4096 capacity.  The reader
notifies the slot but the frame ends up empty instead of holding the advertised
payload, refuting the unconditional claim. -/
theorem c1_counterexample :
    msgBig.stream.length = msgBig.aoe.length
    ∧ (st1.queue.getD 0 default).invokeId = msgBig.aoe.invokeId
    ∧ acceptedReplyCmd msgBig.aoe.cmdId = true
    ∧ ((AmsConnection.Recv1 st1 msgBig).1.queue.getD 0 default).frame.bytes ≠ msgBig.stream
    ∧ ((AmsConnection.Recv1 st1 msgBig).1.queue.getD 0 default).frame.bytes = []
    ∧ (AmsConnection.Recv1 st1 msgBig).2.slotNotified = some 0 := by
  have hnil : ((AmsConnection.Recv1 st1 msgBig).1.queue.getD 0 default).frame.bytes = [] := by
    decide
  have hsl : msgBig.stream.length = msgBig.aoe.length := by
    show (List.replicate 4097 171).length = 4097
    rw [List.length_replicate]
  refine ⟨hsl, by decide, by decide, ?_, hnil, by decide⟩
  intro h
  rw [hnil] at h
  have h0 := congrArg List.length h
  rw [List.length_nil] at h0
  rw [hsl] at h0
  exact absurd h0 (by decide)

/-- C1 (amended): for a reply frame with an accepted cmdId whose invokeId
matches the reservation on the slot of its targetPort, provided the advertised
length does not exceed the slot frame's capacity, the reader copies exactly the
advertised bytes into the slot frame, limits it to them, and notifies the slot,
so the blocked caller's wait predicate becomes true with the reply payload in
the frame. -/
theorem c1_reply_roundtrip (st : ConnState) (m : TcpMsg) (i : Nat)
    (hlen : ¬ m.tcpLen < AoEHeader.byteSize)
    (hcmd8 : m.aoe.cmdId ≠ AoEHeader.DEVICE_NOTIFICATION)
    (hidx : queueIdx? m.aoe.targetPort = some i)
    (hi : i < st.queue.length)
    (hmatch : (st.queue.getD i default).invokeId = m.aoe.invokeId)
    (hacc : acceptedReplyCmd m.aoe.cmdId = true)
    (hcap : m.aoe.length ≤ (st.queue.getD i default).frame.capacity)
    (hstream : m.stream.length = m.aoe.length) :
    ((AmsConnection.Recv1 st m).1.queue.getD i default).frame.bytes = m.stream
    ∧ ((AmsConnection.Recv1 st m).1.queue.getD i default).invokeId = 0
    ∧ AmsResponse.Wait ((AmsConnection.Recv1 st m).1.queue.getD i default) = true
    ∧ (AmsConnection.Recv1 st m).2.slotNotified = some i
    ∧ (AmsConnection.Recv1 st m).2.drained = 0 := by
  have h4 : ¬ m.aoe.length > (st.queue.getD i default).frame.capacity := not_lt.mpr hcap
  simp only [AmsConnection.Recv1, eq_false hlen, eq_false hcmd8, if_false, hidx,
    eq_true hmatch, if_true, AmsConnection.ReceiveFrame, eq_false h4, hacc,
    AmsResponse.Notify, AmsResponse.Wait]
  rw [getD_set_self _ _ _ (by simpa using hi)]
  refine ⟨?_, rfl, rfl, trivial, trivial⟩
  show List.take m.aoe.length m.stream = m.stream
  rw [← hstream, List.take_length]

def stW : ConnState := ⟨freeQueue.set 0 ⟨⟨4096, []⟩, 1⟩, []⟩

def msgW : TcpMsg := ⟨36, ⟨netA, 30000, netA, 851, 4, 4, 4, 0, 1⟩, [1, 0, 0, 0]⟩

/-- Witness for C1 (amended): the READ_STATE happy path of spec 8 scenario 1:
invokeId 1 on local port 30000, 4-byte payload `01 00 00 00`. -/
theorem c1_witness :
    (¬ msgW.tcpLen < AoEHeader.byteSize) ∧ msgW.aoe.cmdId ≠ AoEHeader.DEVICE_NOTIFICATION ∧
    queueIdx? msgW.aoe.targetPort = some 0 ∧ 0 < stW.queue.length ∧
    (stW.queue.getD 0 default).invokeId = msgW.aoe.invokeId ∧
    acceptedReplyCmd msgW.aoe.cmdId = true ∧
    msgW.aoe.length ≤ (stW.queue.getD 0 default).frame.capacity ∧
    msgW.stream.length = msgW.aoe.length ∧
    (((AmsConnection.Recv1 stW msgW).1.queue.getD 0 default).frame.bytes = msgW.stream
      ∧ ((AmsConnection.Recv1 stW msgW).1.queue.getD 0 default).invokeId = 0
      ∧ AmsResponse.Wait ((AmsConnection.Recv1 stW msgW).1.queue.getD 0 default) = true
      ∧ (AmsConnection.Recv1 stW msgW).2.slotNotified = some 0
      ∧ (AmsConnection.Recv1 stW msgW).2.drained = 0) :=
  ⟨by decide, by decide, by decide, by decide, by decide, by decide, by decide, by decide,
    c1_reply_roundtrip stW msgW 0 (by decide) (by decide) (by decide) (by decide)
      (by decide) (by decide) (by decide) (by decide)⟩

/-- C6: a reply whose invokeId differs from the one stored in the target
port's slot leaves the whole state unchanged (slot untouched, nobody
notified), logs the mismatch, and drains exactly header.length bytes, so the
reader continues and the waiting caller eventually times out. -/
theorem c6_invokeId_mismatch (st : ConnState) (m : TcpMsg) (i : Nat)
    (hlen : ¬ m.tcpLen < AoEHeader.byteSize)
    (hcmd8 : m.aoe.cmdId ≠ AoEHeader.DEVICE_NOTIFICATION)
    (hidx : queueIdx? m.aoe.targetPort = some i)
    (hmm : (st.queue.getD i default).invokeId ≠ m.aoe.invokeId) :
    AmsConnection.Recv1 st m =
      (st, ⟨m.aoe.length, none, false,
        [LogMsg.invokeIdMismatch, LogMsg.noResponsePending], false⟩) := by
  simp only [AmsConnection.Recv1, eq_false hlen, eq_false hcmd8, if_false, hidx,
    eq_false hmm]

def msgMM : TcpMsg := ⟨36, ⟨netA, 30000, netA, 851, 2, 4, 4, 0, 2⟩, [9, 9, 9, 9]⟩

/-- Witness for C6: spec 8 scenario 2: the slot holds invokeId 7, the peer
replies with invokeId 2. -/
theorem c6_witness :
    (¬ msgMM.tcpLen < AoEHeader.byteSize) ∧ msgMM.aoe.cmdId ≠ AoEHeader.DEVICE_NOTIFICATION ∧
    queueIdx? msgMM.aoe.targetPort = some 0 ∧
    (st1.queue.getD 0 default).invokeId ≠ msgMM.aoe.invokeId ∧
    AmsConnection.Recv1 st1 msgMM =
      (st1, ⟨msgMM.aoe.length, none, false,
        [LogMsg.invokeIdMismatch, LogMsg.noResponsePending], false⟩) :=
  ⟨by decide, by decide, by decide, by decide,
    c6_invokeId_mismatch st1 msgMM 0 (by decide) (by decide) (by decide) (by decide)⟩

/-- C8: a matching reply with a cmdId outside the eight accepted reply opcodes
still notifies the slot, but with a cleared frame: the caller's wait predicate
turns true on an empty frame, and the unknown command is logged. -/
theorem c8_unknown_cmdId (st : ConnState) (m : TcpMsg) (i : Nat)
    (hlen : ¬ m.tcpLen < AoEHeader.byteSize)
    (hcmd8 : m.aoe.cmdId ≠ AoEHeader.DEVICE_NOTIFICATION)
    (hidx : queueIdx? m.aoe.targetPort = some i)
    (hi : i < st.queue.length)
    (hmatch : (st.queue.getD i default).invokeId = m.aoe.invokeId)
    (hacc : acceptedReplyCmd m.aoe.cmdId = false) :
    ((AmsConnection.Recv1 st m).1.queue.getD i default).frame.bytes = []
    ∧ ((AmsConnection.Recv1 st m).1.queue.getD i default).invokeId = 0
    ∧ AmsResponse.Wait ((AmsConnection.Recv1 st m).1.queue.getD i default) = true
    ∧ (AmsConnection.Recv1 st m).2.slotNotified = some i
    ∧ LogMsg.unknownCmdId ∈ (AmsConnection.Recv1 st m).2.warns := by
  simp only [AmsConnection.Recv1, eq_false hlen, eq_false hcmd8, if_false, hidx,
    eq_true hmatch, if_true, AmsConnection.ReceiveFrame, hacc,
    AmsResponse.Notify, AmsResponse.Wait, Frame.clear]
  rw [getD_set_self _ _ _ (by simpa using hi)]
  refine ⟨?_, rfl, rfl, trivial, by simp⟩
  by_cases hover : m.aoe.length > (st.queue.getD i default).frame.capacity <;>
    simp [hover]

def msgUC : TcpMsg := ⟨36, ⟨netA, 30000, netA, 851, 255, 4, 4, 0, 7⟩, [1, 2, 3, 4]⟩

/-- Witness for C8: cmdId 255 with the matching invokeId 7 on port 30000. -/
theorem c8_witness :
    (¬ msgUC.tcpLen < AoEHeader.byteSize) ∧ msgUC.aoe.cmdId ≠ AoEHeader.DEVICE_NOTIFICATION ∧
    queueIdx? msgUC.aoe.targetPort = some 0 ∧ 0 < st1.queue.length ∧
    (st1.queue.getD 0 default).invokeId = msgUC.aoe.invokeId ∧
    acceptedReplyCmd msgUC.aoe.cmdId = false ∧
    (((AmsConnection.Recv1 st1 msgUC).1.queue.getD 0 default).frame.bytes = []
      ∧ ((AmsConnection.Recv1 st1 msgUC).1.queue.getD 0 default).invokeId = 0
      ∧ AmsResponse.Wait ((AmsConnection.Recv1 st1 msgUC).1.queue.getD 0 default) = true
      ∧ (AmsConnection.Recv1 st1 msgUC).2.slotNotified = some 0
      ∧ LogMsg.unknownCmdId ∈ (AmsConnection.Recv1 st1 msgUC).2.warns) :=
  ⟨by decide, by decide, by decide, by decide, by decide, by decide,
    c8_unknown_cmdId st1 msgUC 0 (by decide) (by decide) (by decide) (by decide)
      (by decide) (by decide)⟩

def msgOob : TcpMsg := ⟨36, ⟨netA, 0, netA, 851, 2, 4, 4, 0, 1⟩, [1, 2, 3, 4]⟩

/-- C5: refuted on the code as a code bug: a received non-notification header
whose wire-supplied targetPort is 0 makes the reader index the slot array at
0 − PORT_BASE, outside the fixed array; the bounds-checked embedding returns
`none` and flags the access, contradicting the claim that the index is always
in bounds. -/
theorem c5_wire_port_out_of_bounds :
    (¬ msgOob.tcpLen < AoEHeader.byteSize)
    ∧ msgOob.aoe.cmdId ≠ AoEHeader.DEVICE_NOTIFICATION
    ∧ queueIdx? msgOob.aoe.targetPort = none
    ∧ (AmsConnection.Recv1 st1 msgOob).2.oob = true
    ∧ (AmsConnection.Recv1 st1 msgOob).1 = st1 := by
  refine ⟨by decide, by decide, by decide, by decide, ?_⟩
  decide
